import Mathlib

set_option maxRecDepth 10000

/-!
# Verification of the YOLOv8 grid-search training notebook

Shallow embedding of `src/yolov8-train-wandb.ipynb`.  The notebook is
linear glue code: it checks a Roboflow API key in the environment,
downloads a dataset, and runs a grid search over
(model size, epoch count, batch size, optimizer), calling
`train_yolo_with_wandb` once per combination.

Paths are modelled relative to the notebook's `HOME` directory
(`HOME = BASE / "yolov8"`); `pathlib`'s `/` operator becomes string
concatenation with `"/"`.  Side effects of one run
(`os.chdir`, `mkdir`, `wandb.init`, `YOLO(...)`, `model.train`,
`wandb.finish`) become an explicit `Event` trace.  Python's f-string
rendering of a nonnegative integer becomes the decimal renderer
`natStr`.
-/

/-- Decimal digits of `n`, most significant last, computed with explicit
fuel so that it reduces in the kernel.  `natToRevDigits fuel n` is the
reversed decimal digit-character list of `n` provided `n ≤ fuel`. -/
def natToRevDigits : Nat → Nat → List Char
  | 0, _ => []
  | fuel + 1, n =>
    if n = 0 then [] else Nat.digitChar (n % 10) :: natToRevDigits fuel (n / 10)

/-- Decimal rendering of a natural number, the embedding of Python's
f-string formatting of a nonnegative `int` (e.g. `f"{epoch}"`). -/
def natStr (n : Nat) : String :=
  if n = 0 then "0" else (natToRevDigits n n).reverse.asString

/-- `pathlib`'s `/` operator on (relative, slash-separated) paths. -/
def pathJoin (a b : String) : String := a ++ "/" ++ b

/-- cell-4: `DATASETS_PATH = HOME / "datasets"`, relative to `HOME`. -/
def DATASETS_PATH : String := "datasets"

/-- cell-20: `dataset_location = str(DATASETS_PATH / "TA-5")`. -/
def dataset_location : String := pathJoin DATASETS_PATH "TA-5"

/-- cell-18: `experiment_name = f"epoch_{epoch}_batch_{batch_size}_optimizer_{optimizer}"`. -/
def experimentName (epoch batch_size : Nat) (optimizer : String) : String :=
  "epoch_" ++ natStr epoch ++ "_batch_" ++ natStr batch_size ++ "_optimizer_" ++ optimizer

/-- cell-18: `experiment_path = base_dir / experiment_name` with
`base_dir = HOME / f"experiments/yolov8{version}"`, relative to `HOME`. -/
def experimentDir (version : String) (epoch batch_size : Nat) (optimizer : String) : String :=
  pathJoin ("experiments/yolov8" ++ version) (experimentName epoch batch_size optimizer)

/-- cell-18: the W&B run name `f"yolov8{version}-{experiment_name}"`. -/
def wandbRunName (version : String) (epoch batch_size : Nat) (optimizer : String) : String :=
  "yolov8" ++ version ++ "-" ++ experimentName epoch batch_size optimizer

/-- One externally visible side effect of the notebook. -/
inductive Event where
  /-- `os.chdir(...)` -/
  | chdir (dir : String)
  /-- `Path(...).mkdir(parents=True, exist_ok=True)` -/
  | mkdirExistOk (path : String)
  /-- `wandb.init(project=..., entity=..., name=..., config={epochs, batch_size, optimizer, version}, dir=...)` -/
  | wandbInit (project entity name : String) (cfgEpochs cfgBatch : Nat)
      (cfgOptimizer cfgVersion : String) (dir : String)
  /-- `YOLO(f"yolov8{version}.pt")` -/
  | loadModel (checkpoint : String)
  /-- `model.train(data=..., epochs=..., batch=..., optimizer=..., weight_decay=..., warmup_epochs=..., save_dir=..., device=...)` -/
  | trainCall (data : String) (epochs batch : Nat) (optimizer : String)
      (weight_decay : ℚ) (warmup_epochs : Nat) (save_dir device : String)
  /-- cell-14: `rf.workspace(...).project(...).version(...).download("yolov8")` -/
  | roboflowDownload (workspace project : String) (versionNum : Nat) (format : String)
  /-- cell-16: `wandb.login()` -/
  | wandbLogin
  /-- `wandb.finish()` -/
  | wandbFinish
deriving DecidableEq

/-- cell-18, `train_yolo_with_wandb`: the straight-line event trace of one
training run.  `cuda_available` models `torch.cuda.is_available()`. -/
def train_yolo_with_wandb (cuda_available : Bool) (version : String)
    (epoch batch_size : Nat) (optimizer dataset_loc : String) : List Event :=
  let experiment_path := experimentDir version epoch batch_size optimizer
  [Event.chdir DATASETS_PATH,
   Event.mkdirExistOk experiment_path,
   Event.wandbInit "elec-thermal-detection" "dar-ta"
     (wandbRunName version epoch batch_size optimizer)
     epoch batch_size optimizer version experiment_path,
   Event.loadModel ("yolov8" ++ version ++ ".pt"),
   Event.trainCall (dataset_loc ++ "/data.yaml") epoch batch_size optimizer
     0.0005 3 experiment_path (if cuda_available then "cuda" else "cpu"),
   Event.wandbFinish]

/-- cell-20: `versions = ["n", "s", "m", "l", "x"]`. -/
def versions : List String := ["n", "s", "m", "l", "x"]

/-- cell-20: `epochs = [50, 100,150, 200]`. -/
def epochs : List Nat := [50, 100, 150, 200]

/-- cell-20: `batch_sizes = [2, 4, 8, 16]`. -/
def batch_sizes : List Nat := [2, 4, 8, 16]

/-- cell-20: `optimizers = ["Adam", "SGD"]`. -/
def optimizers : List String := ["Adam", "SGD"]

/-- The arguments of one `train_yolo_with_wandb` call in the grid. -/
structure RunConfig where
  version : String
  epoch : Nat
  batch_size : Nat
  optimizer : String
deriving DecidableEq

/-- cell-20: the sequence of training invocations produced by the four
nested `for` loops, `version` outermost, `optimizer` innermost. -/
def gridInvocations : List RunConfig :=
  versions.flatMap fun version =>
    epochs.flatMap fun epoch =>
      batch_sizes.flatMap fun batch_size =>
        optimizers.map fun optimizer =>
          { version := version, epoch := epoch,
            batch_size := batch_size, optimizer := optimizer }

/-- cell-20: the event trace of the whole grid search, each invocation
receiving the fixed `dataset_location`. -/
def gridSearchEvents (cuda_available : Bool) : List Event :=
  gridInvocations.flatMap fun c =>
    train_yolo_with_wandb cuda_available c.version c.epoch c.batch_size
      c.optimizer dataset_location

/-- The external world the notebook runs against: the process
environment, CUDA availability, and the location object returned by the
Roboflow download (`dataset = version.download("yolov8")`). -/
structure World where
  env : String → Option String
  cuda_available : Bool
  download_result : String

/-- cell-12 error message. -/
def apiKeyErrorMsg : String :=
  "❌ API key not found. Ensure .env file contains ROBOFLOW_API_KEY."

/-- cell-12: `api_key = os.getenv("ROBOFLOW_API_KEY"); if not api_key: raise ValueError(...)`.
Python's `not api_key` is true when the variable is absent or the empty
string. -/
def load_api_key (env : String → Option String) : Except String String :=
  match env "ROBOFLOW_API_KEY" with
  | none => Except.error apiKeyErrorMsg
  | some k => if k = "" then Except.error apiKeyErrorMsg else Except.ok k

/-- The notebook, cells 12 through 20, as a trace-producing run: the
API-key check, then the dataset download, the W&B login and the grid
search.  An `Except.error` means the `ValueError` aborted the notebook
before any of those events happened. -/
def notebookRun (w : World) : Except String (List Event) :=
  match load_api_key w.env with
  | Except.error e => Except.error e
  | Except.ok _ =>
    Except.ok
      (Event.chdir DATASETS_PATH ::
       Event.roboflowDownload "i-wayan-agus-darmawan-siflb" "ta-o2kfq" 5 "yolov8" ::
       Event.wandbLogin ::
       gridSearchEvents w.cuda_available)

/-- A filesystem of existing directories, and `pathlib.Path.mkdir` with
`exist_ok`: creating an existing directory errors exactly when
`exist_ok` is false. -/
def mkdir (fs : List String) (path : String) (exist_ok : Bool) :
    Except String (List String) :=
  if path ∈ fs then
    if exist_ok then Except.ok fs else Except.error "FileExistsError"
  else Except.ok (path :: fs)

/-- cell-18, first two statements that touch the filesystem: derive the
experiment directory and create it with `exist_ok=True`. -/
def deriveAndCreate (fs : List String) (version : String)
    (epoch batch_size : Nat) (optimizer : String) :
    String × Except String (List String) :=
  let p := experimentDir version epoch batch_size optimizer
  (p, mkdir fs p true)

/-- cell-20 with a fallible training call: run the grid in order, and let
the first raised failure propagate (the loop body has no `try`/`except`).
Returns the invocations actually attempted and whether the grid
completed. -/
def runGrid (fails : RunConfig → Bool) : List RunConfig → List RunConfig × Bool
  | [] => ([], true)
  | c :: rest =>
    if fails c then ([c], false)
    else
      let r := runGrid fails rest
      (c :: r.1, r.2)

/-- The validity domain of C2: the model sizes and optimizers the spec
enumerates, positive epoch and batch counts. -/
def ValidConfig (version : String) (epoch batch_size : Nat) (optimizer : String) : Prop :=
  version ∈ (["n", "s", "m", "l", "x"] : List String) ∧ 0 < epoch ∧ 0 < batch_size ∧
    optimizer ∈ (["Adam", "SGD"] : List String)

theorem natToRevDigits_eq_digits :
    ∀ fuel n, n ≤ fuel → natToRevDigits fuel n = (Nat.digits 10 n).map Nat.digitChar := by
  intro fuel
  induction fuel with
  | zero =>
    intro n h
    have hn : n = 0 := Nat.le_zero.mp h
    subst hn
    simp [natToRevDigits]
  | succ f ih =>
    intro n h
    by_cases hn : n = 0
    · subst hn
      simp [natToRevDigits]
    · have hpos : 0 < n := Nat.pos_of_ne_zero hn
      have hdiv : n / 10 ≤ f := by
        have := Nat.div_lt_self hpos (by norm_num : 1 < 10)
        omega
      rw [natToRevDigits, if_neg hn, Nat.digits_def' (by norm_num : 1 < 10) hpos,
        List.map_cons, ih (n / 10) hdiv]

theorem digitChar_isDigit : ∀ d, d < 10 → (Nat.digitChar d).isDigit = true := by decide

theorem digitChar_injOn :
    ∀ a, a < 10 → ∀ b, b < 10 → Nat.digitChar a = Nat.digitChar b → a = b := by decide

/-- The digit list `natStr` renders, most significant first: `[0]` for
zero, else the reversed base-10 digits. -/
theorem natStr_data_eq (n : Nat) :
    (natStr n).data =
      ((if n = 0 then [0] else Nat.digits 10 n).map Nat.digitChar).reverse := by
  by_cases hn : n = 0
  · subst hn
    simp [natStr]
    decide
  · rw [natStr, if_neg hn, if_neg hn, natToRevDigits_eq_digits n n le_rfl]
    rfl

theorem padded_digits_lt (n : Nat) :
    ∀ d ∈ (if n = 0 then [0] else Nat.digits 10 n), d < 10 := by
  intro d hd
  by_cases hn : n = 0
  · rw [if_pos hn] at hd
    simp at hd
    omega
  · rw [if_neg hn] at hd
    exact Nat.digits_lt_base (by norm_num) hd

theorem padded_digits_inj (m n : Nat)
    (h : (if m = 0 then [0] else Nat.digits 10 m) = (if n = 0 then [0] else Nat.digits 10 n)) :
    m = n := by
  have hof := congrArg (Nat.ofDigits 10) h
  by_cases hm : m = 0 <;> by_cases hn : n = 0 <;>
    simp [hm, hn, Nat.ofDigits_digits, Nat.ofDigits_cons, Nat.ofDigits_nil] at hof ⊢ <;>
    omega

theorem map_digitChar_injOn :
    ∀ (l1 l2 : List Nat), (∀ d ∈ l1, d < 10) → (∀ d ∈ l2, d < 10) →
      l1.map Nat.digitChar = l2.map Nat.digitChar → l1 = l2 := by
  intro l1
  induction l1 with
  | nil =>
    intro l2 _ _ h
    cases l2 with
    | nil => rfl
    | cons b t => simp at h
  | cons a t1 ih =>
    intro l2 h1 h2 h
    cases l2 with
    | nil => simp at h
    | cons b t2 =>
      simp only [List.map_cons, List.cons.injEq] at h
      have hab : a = b :=
        digitChar_injOn a (h1 a (List.mem_cons_self a t1)) b
          (h2 b (List.mem_cons_self b t2)) h.1
      have ht : t1 = t2 :=
        ih t2 (fun d hd => h1 d (List.mem_cons_of_mem _ hd))
          (fun d hd => h2 d (List.mem_cons_of_mem _ hd)) h.2
      rw [hab, ht]

/-- `natStr` is injective already at the level of character data. -/
theorem natStr_data_inj (m n : Nat) (h : (natStr m).data = (natStr n).data) : m = n := by
  rw [natStr_data_eq, natStr_data_eq] at h
  have h2 := List.reverse_inj.mp h
  exact padded_digits_inj m n
    (map_digitChar_injOn _ _ (padded_digits_lt m) (padded_digits_lt n) h2)

theorem natStr_all_digits (n : Nat) : ∀ c ∈ (natStr n).data, c.isDigit = true := by
  intro c hc
  rw [natStr_data_eq] at hc
  rw [List.mem_reverse, List.mem_map] at hc
  obtain ⟨d, hd, rfl⟩ := hc
  exact digitChar_isDigit d (padded_digits_lt n d hd)

theorem natStr_no_underscore (n : Nat) : ('_' : Char) ∉ (natStr n).data := by
  intro hmem
  have := natStr_all_digits n _ hmem
  exact absurd this (by decide)

theorem string_data_inj (s t : String) (h : s.data = t.data) : s = t := by
  cases s
  cases t
  exact congrArg String.mk h

/-- Splitting at a separator character that occurs in neither left part
identifies the parts. -/
theorem sep_split {sep : Char} :
    ∀ (a1 : List Char) (a2 t1 t2 : List Char), sep ∉ a1 → sep ∉ a2 →
      a1 ++ sep :: t1 = a2 ++ sep :: t2 → a1 = a2 ∧ t1 = t2 := by
  intro a1
  induction a1 with
  | nil =>
    intro a2 t1 t2 _ h2 h
    cases a2 with
    | nil =>
      simp only [List.nil_append, List.cons.injEq] at h
      exact ⟨rfl, h.2⟩
    | cons c a2' =>
      exfalso
      simp only [List.nil_append, List.cons_append, List.cons.injEq] at h
      exact h2 (h.1 ▸ List.mem_cons_self c a2')
  | cons c a1' ih =>
    intro a2 t1 t2 h1 h2 h
    cases a2 with
    | nil =>
      exfalso
      simp only [List.nil_append, List.cons_append, List.cons.injEq] at h
      exact h1 (h.1 ▸ List.mem_cons_self c a1')
    | cons d a2' =>
      simp only [List.cons_append, List.cons.injEq] at h
      obtain ⟨he, ht⟩ := ih a2' t1 t2
        (fun hm => h1 (List.mem_cons_of_mem _ hm))
        (fun hm => h2 (List.mem_cons_of_mem _ hm)) h.2
      exact ⟨by rw [h.1, he], ht⟩

/-- The character data of a derived experiment path, with every literal
segment exposed. -/
theorem experimentDir_data (v : String) (e b : Nat) (o : String) :
    (experimentDir v e b o).data =
      "experiments/yolov8".data ++
        (v.data ++
          (('/' :: 'e' :: 'p' :: 'o' :: 'c' :: 'h' :: '_' :: []) ++
            ((natStr e).data ++
              (('_' :: 'b' :: 'a' :: 't' :: 'c' :: 'h' :: '_' :: []) ++
                ((natStr b).data ++
                  (('_' :: 'o' :: 'p' :: 't' :: 'i' :: 'm' :: 'i' :: 'z' :: 'e' :: 'r' :: '_' :: []) ++
                    o.data)))))) := by
  simp only [experimentDir, pathJoin, experimentName, String.data_append, List.append_assoc]
  simp only [List.cons_append, List.nil_append, List.append_assoc]

/-- The experiment directory written as one flat concatenation, as the
spec states it. -/
theorem experimentDir_flat (v : String) (e b : Nat) (o : String) :
    experimentDir v e b o =
      "experiments/yolov8" ++ v ++ "/epoch_" ++ natStr e ++ "_batch_" ++ natStr b ++
        "_optimizer_" ++ o := by
  apply string_data_inj
  rw [experimentDir_data]
  simp only [String.data_append, List.append_assoc]

theorem valid_version_single_char :
    ∀ v : String, v ∈ (["n", "s", "m", "l", "x"] : List String) → ∃ c, v.data = [c] := by
  intro v hv
  fin_cases hv
  · exact ⟨ 'n', by decide⟩
  · exact ⟨ 's', by decide⟩
  · exact ⟨ 'm', by decide⟩
  · exact ⟨ 'l', by decide⟩
  · exact ⟨ 'x', by decide⟩

/-- C2: for valid configurations the derived experiment-directory path is
exactly `experiments/yolov8<model_size>/epoch_<epoch>_batch_<batch>_optimizer_<optimizer>`,
a pure function of the four values, and two configurations derive the
same path exactly when they are equal (injectivity). -/
theorem experimentDir_spec (v1 : String) (e1 b1 : Nat) (o1 v2 : String) (e2 b2 : Nat)
    (o2 : String) (h1 : ValidConfig v1 e1 b1 o1) (h2 : ValidConfig v2 e2 b2 o2) :
    experimentDir v1 e1 b1 o1 =
      "experiments/yolov8" ++ v1 ++ "/epoch_" ++ natStr e1 ++ "_batch_" ++ natStr b1 ++
        "_optimizer_" ++ o1 ∧
    (experimentDir v1 e1 b1 o1 = experimentDir v2 e2 b2 o2 ↔
      (v1 = v2 ∧ e1 = e2 ∧ b1 = b2 ∧ o1 = o2)) := by
  refine ⟨experimentDir_flat v1 e1 b1 o1, ?_, ?_⟩
  · intro h
    have hd := congrArg String.data h
    rw [experimentDir_data, experimentDir_data] at hd
    have hcut := List.append_cancel_left hd
    obtain ⟨c1, hc1⟩ := valid_version_single_char v1 h1.1
    obtain ⟨c2, hc2⟩ := valid_version_single_char v2 h2.1
    rw [hc1, hc2] at hcut
    simp only [List.cons_append, List.nil_append] at hcut
    injection hcut with hcc hcut
    repeat injection hcut with hx hcut
    obtain ⟨hE, hcut⟩ := sep_split _ _ _ _
      (natStr_no_underscore e1) (natStr_no_underscore e2) hcut
    repeat injection hcut with hx hcut
    obtain ⟨hB, hcut⟩ := sep_split _ _ _ _
      (natStr_no_underscore b1) (natStr_no_underscore b2) hcut
    repeat injection hcut with hx hcut
    refine ⟨?_, natStr_data_inj e1 e2 hE, natStr_data_inj b1 b2 hB, string_data_inj _ _ hcut⟩
    apply string_data_inj
    rw [hc1, hc2, hcc]
  · rintro ⟨rfl, rfl, rfl, rfl⟩
    rfl

/-- C3: the specific configuration ("n", 50, 2, "Adam") produces the
experiment directory `experiments/yolov8n/epoch_50_batch_2_optimizer_Adam`
and the W&B run name `yolov8n-epoch_50_batch_2_optimizer_Adam`. -/
theorem example_config_paths :
    experimentDir "n" 50 2 "Adam" = "experiments/yolov8n/epoch_50_batch_2_optimizer_Adam" ∧
    wandbRunName "n" 50 2 "Adam" = "yolov8n-epoch_50_batch_2_optimizer_Adam" := by
  constructor <;> decide

/-- C1: the grid-search driver performs exactly one training invocation
per element of the Cartesian product of the four enumerations — 160 in
total — and the sequence follows the fixed nested order with model size
outermost and optimizer innermost: invocation `i` uses
`versions[i / 32]`, `epochs[i / 8 % 4]`, `batch_sizes[i / 2 % 4]`,
`optimizers[i % 2]`. -/
theorem grid_search_driver_spec :
    gridInvocations.length = 160 ∧
    (∀ i, i < 160 →
      gridInvocations.getD i ⟨"", 0, 0, ""⟩ =
        { version := versions.getD (i / 32) "",
          epoch := epochs.getD (i / 8 % 4) 0,
          batch_size := batch_sizes.getD (i / 2 % 4) 0,
          optimizer := optimizers.getD (i % 2) "" }) ∧
    (∀ v ∈ versions, ∀ e ∈ epochs, ∀ b ∈ batch_sizes, ∀ o ∈ optimizers,
      List.count (⟨v, e, b, o⟩ : RunConfig) gridInvocations = 1) := by
  refine ⟨by decide, by decide, by decide⟩

theorem grid_search_driver_spec_witness :
    gridInvocations.getD 0 ⟨"", 0, 0, ""⟩ = ⟨"n", 50, 2, "Adam"⟩ ∧
    List.count (⟨"x", 200, 16, "SGD"⟩ : RunConfig) gridInvocations = 1 := by
  constructor
  · exact (grid_search_driver_spec.2.1 0 (by decide)).trans (by decide)
  · exact grid_search_driver_spec.2.2 "x" (by decide) 200 (by decide) 16 (by decide)
      "SGD" (by decide)

/-- C4: if ROBOFLOW_API_KEY is absent from the environment, the notebook
aborts with the descriptive `ValueError` message and produces no event at
all — in particular no training invocation. -/
theorem missing_key_aborts (w : World) (h : w.env "ROBOFLOW_API_KEY" = none) :
    notebookRun w = Except.error apiKeyErrorMsg := by
  simp [notebookRun, load_api_key, h]

theorem missing_key_aborts_witness :
    notebookRun ⟨fun _ => none, false, "datasets/TA-5"⟩ = Except.error apiKeyErrorMsg :=
  missing_key_aborts ⟨fun _ => none, false, "datasets/TA-5"⟩ rfl

/-- C9: a credential that is present but equal to the empty string is
treated exactly like a missing one — the check is on truthiness — and the
notebook aborts before any training invocation. -/
theorem empty_key_aborts (w : World) (h : w.env "ROBOFLOW_API_KEY" = some "") :
    notebookRun w = Except.error apiKeyErrorMsg := by
  simp [notebookRun, load_api_key, h]

theorem empty_key_aborts_witness :
    notebookRun ⟨fun _ => some "", true, "datasets/TA-5"⟩ = Except.error apiKeyErrorMsg :=
  empty_key_aborts ⟨fun _ => some "", true, "datasets/TA-5"⟩ rfl

/-- C6: within one run the six effects happen in the order
chdir; derive-and-create the experiment directory; open the tracking
session (tagged with the full run configuration, named after it, and
scoped to the experiment directory); load the pretrained checkpoint;
invoke training; close the tracking session — which is the last event of
the run, after the training call returns. -/
theorem train_run_order (cuda : Bool) (version : String) (epoch batch_size : Nat)
    (optimizer dataset_loc : String) :
    (train_yolo_with_wandb cuda version epoch batch_size optimizer dataset_loc).length = 6 ∧
    (train_yolo_with_wandb cuda version epoch batch_size optimizer dataset_loc).getD 1
        (Event.chdir "") =
      Event.mkdirExistOk (experimentDir version epoch batch_size optimizer) ∧
    (train_yolo_with_wandb cuda version epoch batch_size optimizer dataset_loc).getD 2
        (Event.chdir "") =
      Event.wandbInit "elec-thermal-detection" "dar-ta"
        (wandbRunName version epoch batch_size optimizer) epoch batch_size optimizer
        version (experimentDir version epoch batch_size optimizer) ∧
    (train_yolo_with_wandb cuda version epoch batch_size optimizer dataset_loc).getD 3
        (Event.chdir "") =
      Event.loadModel ("yolov8" ++ version ++ ".pt") ∧
    (train_yolo_with_wandb cuda version epoch batch_size optimizer dataset_loc).getD 4
        (Event.chdir "") =
      Event.trainCall (dataset_loc ++ "/data.yaml") epoch batch_size optimizer 0.0005 3
        (experimentDir version epoch batch_size optimizer)
        (if cuda then "cuda" else "cpu") ∧
    (train_yolo_with_wandb cuda version epoch batch_size optimizer dataset_loc).getD 5
        (Event.chdir "") =
      Event.wandbFinish :=
  ⟨rfl, rfl, rfl, rfl, rfl, rfl⟩

theorem runGrid_first_failure :
    ∀ (fails : RunConfig → Bool) (pre : List RunConfig) (c : RunConfig)
      (post : List RunConfig),
      (∀ x ∈ pre, fails x = false) → fails c = true →
      runGrid fails (pre ++ c :: post) = (pre ++ [c], false) := by
  intro fails pre
  induction pre with
  | nil =>
    intro c post _ hc
    simp [runGrid, hc]
  | cons a t ih =>
    intro c post hpre hc
    have ha : fails a = false := hpre a (List.mem_cons_self a t)
    have ih' := ih c post (fun x hx => hpre x (List.mem_cons_of_mem _ hx)) hc
    simp [runGrid, ha, ih', List.append_eq]

/-- C5: there is no run-level error handling in the grid loop — when the
first failing invocation is reached, it is attempted once and the grid
aborts there: every invocation before it ran, the failing one is not
retried, and none of the remaining combinations is ever invoked. -/
theorem grid_failure_aborts (fails : RunConfig → Bool) (pre : List RunConfig)
    (c : RunConfig) (post : List RunConfig)
    (hsplit : gridInvocations = pre ++ c :: post)
    (hpre : ∀ x ∈ pre, fails x = false) (hc : fails c = true) :
    runGrid fails gridInvocations = (pre ++ [c], false) := by
  rw [hsplit]
  exact runGrid_first_failure fails pre c post hpre hc

theorem grid_failure_aborts_witness :
    runGrid (fun c => c.batch_size == 4) gridInvocations =
      ([⟨"n", 50, 2, "Adam"⟩, ⟨"n", 50, 2, "SGD"⟩] ++ [⟨"n", 50, 4, "Adam"⟩], false) :=
  grid_failure_aborts (fun c => c.batch_size == 4)
    [⟨"n", 50, 2, "Adam"⟩, ⟨"n", 50, 2, "SGD"⟩] ⟨"n", 50, 4, "Adam"⟩
    (gridInvocations.drop 3) (by decide) (by decide) (by decide)

/-- Any `trainCall` event in a grid over invocation list `l` carries the
fixed dataset path, weight decay 0.0005, warm-up 3, the device selected
from CUDA availability, and the hyperparameters of some invocation in
`l`. -/
theorem trainCall_mem_characterization
    (l : List RunConfig) (cuda : Bool) (ds d : String) (ep bt : Nat) (op : String)
    (wd : ℚ) (we : Nat) (sd dev : String)
    (hmem : Event.trainCall d ep bt op wd we sd dev ∈
      l.flatMap (fun c =>
        train_yolo_with_wandb cuda c.version c.epoch c.batch_size c.optimizer ds)) :
    d = ds ++ "/data.yaml" ∧ wd = 0.0005 ∧ we = 3 ∧
      dev = (if cuda then "cuda" else "cpu") ∧
      ∃ c ∈ l, ep = c.epoch ∧ bt = c.batch_size ∧ op = c.optimizer ∧
        sd = experimentDir c.version c.epoch c.batch_size c.optimizer := by
  rw [List.mem_flatMap] at hmem
  obtain ⟨c, hc, hev⟩ := hmem
  simp only [train_yolo_with_wandb, List.mem_cons, List.not_mem_nil, or_false] at hev
  rcases hev with h | h | h | h | h | h
  · exact absurd h (by simp)
  · exact absurd h (by simp)
  · exact absurd h (by simp)
  · exact absurd h (by simp)
  · injection h with h1 h2 h3 h4 h5 h6 h7 h8
    exact ⟨h1, h5, h6, h8, c, hc, h2, h3, h4, h7⟩
  · exact absurd h (by simp)

/-- C7: every training invocation of the grid passes weight decay 0.0005
and warm-up 3, and trains on "cuda" exactly when CUDA is available,
otherwise "cpu". -/
theorem train_fixed_hyperparameters (cuda : Bool) (d : String) (ep bt : Nat)
    (op : String) (wd : ℚ) (we : Nat) (sd dev : String)
    (h : Event.trainCall d ep bt op wd we sd dev ∈ gridSearchEvents cuda) :
    wd = 0.0005 ∧ we = 3 ∧ dev = (if cuda then "cuda" else "cpu") := by
  have hchar := trainCall_mem_characterization gridInvocations cuda dataset_location
    d ep bt op wd we sd dev h
  exact ⟨hchar.2.1, hchar.2.2.1, hchar.2.2.2.1⟩

theorem train_fixed_hyperparameters_witness :
    (0.0005 : ℚ) = 0.0005 ∧ (3 : Nat) = 3 ∧ ("cuda" : String) = "cuda" :=
  train_fixed_hyperparameters true (dataset_location ++ "/data.yaml") 50 2 "Adam"
    0.0005 3 (experimentDir "n" 50 2 "Adam") "cuda"
    (List.mem_flatMap.mpr ⟨⟨"n", 50, 2, "Adam"⟩, by decide,
      List.Mem.tail _ (List.Mem.tail _ (List.Mem.tail _ (List.Mem.tail _
        (List.Mem.head _))))⟩)

/-- C10: the dataset path handed to every training invocation is the
constant `DATASETS_PATH / "TA-5"` with `/data.yaml` appended, for every
combination; and the notebook's behaviour does not depend on the value
returned by the dataset-download step. -/
theorem dataset_location_constant :
    (∀ (cuda : Bool) (d : String) (ep bt : Nat) (op : String) (wd : ℚ) (we : Nat)
      (sd dev : String),
      Event.trainCall d ep bt op wd we sd dev ∈ gridSearchEvents cuda →
      d = pathJoin DATASETS_PATH "TA-5" ++ "/data.yaml") ∧
    (∀ (env : String → Option String) (cuda : Bool) (dl1 dl2 : String),
      notebookRun ⟨env, cuda, dl1⟩ = notebookRun ⟨env, cuda, dl2⟩) := by
  constructor
  · intro cuda d ep bt op wd we sd dev h
    exact (trainCall_mem_characterization gridInvocations cuda dataset_location
      d ep bt op wd we sd dev h).1
  · intro env cuda dl1 dl2
    rfl

theorem dataset_location_constant_witness :
    (dataset_location ++ "/data.yaml" : String) =
      pathJoin DATASETS_PATH "TA-5" ++ "/data.yaml" ∧
    notebookRun ⟨fun _ => some "key", true, "downloadedA"⟩ =
      notebookRun ⟨fun _ => some "key", true, "downloadedB"⟩ :=
  ⟨dataset_location_constant.1 true (dataset_location ++ "/data.yaml") 100 4 "SGD"
      0.0005 3 (experimentDir "s" 100 4 "SGD") "cuda"
      (List.mem_flatMap.mpr ⟨⟨"s", 100, 4, "SGD"⟩, by decide,
        List.Mem.tail _ (List.Mem.tail _ (List.Mem.tail _ (List.Mem.tail _
          (List.Mem.head _))))⟩),
    dataset_location_constant.2 (fun _ => some "key") true "downloadedA" "downloadedB"⟩

/-- C8: re-deriving the experiment directory for the same configuration
after it has been created yields the same path, and creating it again
with `exist_ok=True` succeeds and leaves the filesystem unchanged. -/
theorem derive_create_idempotent (fs : List String) (v : String) (e b : Nat)
    (o : String) (fs1 : List String)
    (h : (deriveAndCreate fs v e b o).2 = Except.ok fs1) :
    deriveAndCreate fs1 v e b o = (experimentDir v e b o, Except.ok fs1) := by
  unfold deriveAndCreate mkdir at h ⊢
  by_cases hmem : experimentDir v e b o ∈ fs
  · simp only [hmem, if_true, if_pos, Except.ok.injEq] at h
    subst h
    simp [hmem]
  · simp only [hmem, if_false, if_neg, Except.ok.injEq] at h
    subst h
    simp [List.mem_cons_self]

theorem derive_create_idempotent_witness :
    deriveAndCreate [experimentDir "n" 50 2 "Adam"] "n" 50 2 "Adam" =
      (experimentDir "n" 50 2 "Adam", Except.ok [experimentDir "n" 50 2 "Adam"]) :=
  derive_create_idempotent [] "n" 50 2 "Adam" [experimentDir "n" 50 2 "Adam"] rfl

theorem experimentDir_spec_witness :
    (experimentDir "n" 50 2 "Adam" =
      "experiments/yolov8" ++ "n" ++ "/epoch_" ++ natStr 50 ++ "_batch_" ++ natStr 2 ++
        "_optimizer_" ++ "Adam") ∧
    (experimentDir "n" 50 2 "Adam" = experimentDir "s" 100 4 "SGD" ↔
      (("n" : String) = "s" ∧ (50 : Nat) = 100 ∧ (2 : Nat) = 4 ∧
        ("Adam" : String) = "SGD")) :=
  experimentDir_spec "n" 50 2 "Adam" "s" 100 4 "SGD"
    ⟨by decide, by decide, by decide, by decide⟩
    ⟨by decide, by decide, by decide, by decide⟩
